import Mathlib

/-!
Verification of `scripts/import_inventory.py`: field normalizers, insert
statement construction, response classification, and the submission driver.

Python strings are modelled as `List Char`; Python `None` as `Option`;
Python floats as exact decimal values `num / 10 ^ shift` parsed from
decimal literals (optionally with an exponent part, as accepted by Python
`float`); Python `int()` truncation toward zero as `truncD`.  The HTTP
endpoint is an oracle parameter returning either a structured response or
a raised exception's message (`Except`).
-/

namespace ImportInventory

abbrev PyStr := List Char

/-- Python `str.strip()`: drop whitespace from both ends. -/
def pstrip (s : PyStr) : PyStr :=
  ((s.dropWhile Char.isWhitespace).reverse.dropWhile Char.isWhitespace).reverse

/-- Nonempty and all decimal digits. -/
def isDigits (s : PyStr) : Bool := !s.isEmpty && s.all Char.isDigit

/-- Value of a digit string. -/
def digitsToNat (s : PyStr) : Nat := s.foldl (fun a c => a * 10 + (c.toNat - 48)) 0

/-- Split an optional leading sign from a numeric literal. -/
def splitSign (s : PyStr) : Int × PyStr :=
  match s with
  | '+' :: r => (1, r)
  | '-' :: r => (-1, r)
  | _ => (1, s)

/-- An exact decimal value `num / 10 ^ shift`: the shallow model of the
finite float produced by parsing a decimal literal. -/
structure DecFloat where
  num : Int
  shift : Nat
  deriving DecidableEq

/-- Mantissa of a Python float literal: `digits`, `digits.digits`,
`.digits` or `digits.`, with an optional sign. -/
def parseMantissa (s : PyStr) : Option DecFloat :=
  let p := splitSign s
  match p.2.splitOn '.' with
  | [ip] => if isDigits ip then some ⟨p.1 * (digitsToNat ip : Int), 0⟩ else none
  | [ip, fp] =>
      if ip.all Char.isDigit && fp.all Char.isDigit && (!ip.isEmpty || !fp.isEmpty) then
        some ⟨p.1 * ((digitsToNat ip * 10 ^ fp.length + digitsToNat fp : Nat) : Int),
          fp.length⟩
      else none
  | _ => none

/-- Exponent part of a float literal: optional sign and digits. -/
def parseExp (s : PyStr) : Option Int :=
  let p := splitSign s
  if isDigits p.2 then some (p.1 * (digitsToNat p.2 : Int)) else none

/-- Scaling of a decimal value by `10 ^ e` for an exponent part. -/
def applyExp (d : DecFloat) (e : Int) : DecFloat :=
  if 0 ≤ e then ⟨d.num * ((10 ^ e.toNat : Nat) : Int), d.shift⟩
  else ⟨d.num, d.shift + (-e).toNat⟩

/-- Python `float(s)` on finite decimal literals (surrounding whitespace
tolerated, case-insensitive exponent marker). Non-finite literals such as
`inf`/`nan` are outside the model and map to `none`; where the script then
applies `int()`, Python raises on them and the script catches to 0, so the
modelled results coincide. -/
def parseFloat (s : PyStr) : Option DecFloat :=
  let u := (pstrip s).map Char.toUpper
  match u.splitOn 'E' with
  | [m] => parseMantissa m
  | [m, e] => do
      let d ← parseMantissa m
      let ex ← parseExp e
      pure (applyExp d ex)
  | _ => none

/-- Python `int()` applied to a float value: truncation toward zero. -/
def truncD (d : DecFloat) : Int := Int.tdiv d.num ((10 ^ d.shift : Nat) : Int)

/-- Multiplication of a float value by an integer factor. -/
def scaleD (d : DecFloat) (k : Nat) : DecFloat := ⟨d.num * (k : Int), d.shift⟩

/-- `parse_price`: strip `$` and `,`, parse as float; blank or failure gives 0. -/
def parse_price (s : PyStr) : DecFloat :=
  if s.isEmpty || (pstrip s).isEmpty then ⟨0, 0⟩
  else
    match parseFloat (pstrip (s.filter (fun c => !(c == '$') && !(c == ',')))) with
    | some d => d
    | none => ⟨0, 0⟩

/-- `parse_traffic`: upper-case, strip commas; `K` suffix means x1000,
`M` means x1000000; blank or failure gives 0. -/
def parse_traffic (s : PyStr) : Int :=
  if s.isEmpty || (pstrip s).isEmpty then 0
  else
    let cleaned := pstrip ((s.map Char.toUpper).filter (fun c => !(c == ',')))
    if cleaned.contains 'K' then
      match parseFloat (cleaned.filter (fun c => !(c == 'K'))) with
      | some d => truncD (scaleD d 1000)
      | none => 0
    else if cleaned.contains 'M' then
      match parseFloat (cleaned.filter (fun c => !(c == 'M'))) with
      | some d => truncD (scaleD d 1000000)
      | none => 0
    else
      match parseFloat cleaned with
      | some d => truncD d
      | none => 0

/-- `parse_bool`: true iff the trimmed, lowered value is yes/true/1. -/
def parse_bool (s : PyStr) : Bool :=
  if s.isEmpty then false
  else
    let v := (pstrip s).map Char.toLower
    v == "yes".data || v == "true".data || v == "1".data

/-- `parse_dofollow`: defaults to true; explicit negative markers give false. -/
def parse_dofollow (s : PyStr) : Bool :=
  if s.isEmpty then true
  else
    let v := (pstrip s).map Char.toLower
    if v == "yes".data || v == "true".data || v == "1".data then true
    else if v == "no".data || v == "nofollow".data || v == "false".data
        || v == "0".data || v == "-".data then false
    else true

/-- `re.sub(r'^https?://', '', url)` with no IGNORECASE flag: the prefix is
removed only when it is exactly lowercase. -/
def stripProto (u : PyStr) : PyStr :=
  if "https://".data.isPrefixOf u then u.drop 8
  else if "http://".data.isPrefixOf u then u.drop 7
  else u

/-- `re.sub(r'^www\.', '', url)`. -/
def stripWww (u : PyStr) : PyStr :=
  if "www.".data.isPrefixOf u then u.drop 4 else u

/-- `url.rstrip('/')`: removes every trailing slash. -/
def rstripSlash (u : PyStr) : PyStr := (u.reverse.dropWhile (fun c => c == '/')).reverse

/-- `clean_website`: protocol, leading `www.`, trailing slashes removed;
empty input gives `None`. -/
def clean_website (u : PyStr) : Option PyStr :=
  if u.isEmpty then none
  else some (rstripSlash (stripWww (stripProto u)))

/-- Core of Python `int(text)` on a trimmed string: optional sign then digits.
(Python additionally accepts digit-group underscores and unicode digits,
which the model leaves unparsed.) -/
def pyIntCore (t : PyStr) : Option Int :=
  match t with
  | [] => none
  | c :: r =>
      if c == '-' then (if isDigits r then some (-(digitsToNat r : Int)) else none)
      else if c == '+' then (if isDigits r then some ((digitsToNat r : Nat) : Int) else none)
      else if isDigits (c :: r) then some ((digitsToNat (c :: r) : Nat) : Int) else none

/-- `parse_int`: blank gives `None`, otherwise `int(...)` with failure as `None`. -/
def parse_int (s : PyStr) : Option Int :=
  if s.isEmpty || (pstrip s).isEmpty then none else pyIntCore (pstrip s)

/-- A value placed in the parameter list of the insert statement. -/
inductive PyVal where
  | vstr (s : PyStr)
  | vint (n : Int)
  | vfloat (d : DecFloat)
  | vbool (b : Bool)
  deriving DecidableEq

/-- One spreadsheet row, keyed by the header columns the script reads. -/
structure RawRow where
  magazines : PyStr
  contact : PyStr
  category : PyStr
  da : PyStr
  domainRatingCol : PyStr
  newOT : PyStr
  price : PyStr
  indexed : PyStr
  doFollowCol : PyStr
  news : PyStr
  sponsored : PyStr
  cbd : PyStr
  casino : PyStr
  dating : PyStr
  crypto : PyStr
  tat : PyStr

/-- `row.get(k, '').strip() or None`. -/
def optStr (s : PyStr) : Option PyVal :=
  if (pstrip s).isEmpty then none else some (PyVal.vstr (pstrip s))

/-- The `data` dict of `insert_website`, in insertion order. -/
def buildData (row : RawRow) (website : PyStr) : List (String × Option PyVal) :=
  [ ("website", some (PyVal.vstr website)),
    ("contact", optStr row.contact),
    ("category", optStr row.category),
    ("da", (parse_int row.da).map PyVal.vint),
    ("domain_rating", (parse_int row.domainRatingCol).map PyVal.vint),
    ("organic_traffic", some (PyVal.vint (parse_traffic row.newOT))),
    ("client_price", some (PyVal.vfloat (parse_price row.price))),
    ("is_indexed", some (PyVal.vbool (parse_bool row.indexed))),
    ("do_follow", some (PyVal.vbool (parse_dofollow row.doFollowCol))),
    ("news", some (PyVal.vbool (parse_bool row.news))),
    ("sponsored", some (PyVal.vbool (parse_bool row.sponsored))),
    ("cbd", some (PyVal.vbool (parse_bool row.cbd))),
    ("casino", some (PyVal.vbool (parse_bool row.casino))),
    ("dating", some (PyVal.vbool (parse_bool row.dating))),
    ("crypto", some (PyVal.vbool (parse_bool row.crypto))),
    ("tat", (parse_int row.tat).map PyVal.vint),
    ("status", some (PyVal.vstr "active".data)) ]

/-- `fields = [k for k, v in data.items() if v is not None]`. -/
def insertFields (d : List (String × Option PyVal)) : List String :=
  (d.filter (fun p => p.2.isSome)).map Prod.fst

/-- `values = [v for v in data.values() if v is not None]`. -/
def insertValues (d : List (String × Option PyVal)) : List PyVal :=
  d.filterMap Prod.snd

/-- `placeholders = [f'$\x7bi+1\x7d' for i in range(len(fields))]`. -/
def insertPlaceholders (n : Nat) : List String :=
  (List.range n).map (fun i => "$" ++ toString (i + 1))

/-- The SQL text assembled by `insert_website`. -/
def buildSQL (d : List (String × Option PyVal)) : String :=
  "INSERT INTO website_inventory (" ++ String.intercalate ", " (insertFields d)
    ++ ") VALUES (" ++ String.intercalate ", " (insertPlaceholders (insertFields d).length)
    ++ ") ON CONFLICT (website) DO NOTHING RETURNING id, website"

/-- A row returned by the endpoint (a JSON object, as key-value pairs). -/
abbrev DbRow := List (String × PyStr)

/-- The structured JSON response of the query endpoint. An absent
`rowCount` is modelled as 0 (`result.get('rowCount', 0)`); an absent
`error` as `none` (`result.get('error', 'Unknown error')`). -/
structure QueryResponse where
  success : Bool
  rowCount : Int
  rows : List DbRow
  error : Option PyStr

/-- The `(result, error)` pair returned by `insert_website`. -/
abbrev InsertOutcome := Option DbRow × Option PyStr

/-- Response handling of `insert_website`: the `try` body after
`response.json()`, with a raised transport exception as `Except.error`.
An empty `rows` with positive `rowCount` raises IndexError at `rows[0]`,
caught by the same handler. -/
def classifyResponse (tr : Except PyStr QueryResponse) : InsertOutcome :=
  match tr with
  | Except.error e => (none, some e)
  | Except.ok r =>
      if r.success then
        if 0 < r.rowCount then
          match r.rows with
          | first :: _ => (some first, none)
          | [] => (none, some "list index out of range".data)
        else (none, some "Duplicate (skipped)".data)
      else (none, some (r.error.getD "Unknown error".data))

/-- `insert_website(row)`, with the HTTP endpoint as an oracle taking the
statement and parameter list. -/
def insert_website (row : RawRow)
    (endpoint : String → List PyVal → Except PyStr QueryResponse) : InsertOutcome :=
  match clean_website row.magazines with
  | none => (none, some "No website URL".data)
  | some w =>
      if w.isEmpty then (none, some "No website URL".data)
      else
        let d := buildData row w
        classifyResponse (endpoint (buildSQL d) (insertValues d))

/-- `error and 'Too many requests' in error`. -/
def isRateLimited (r : InsertOutcome) : Bool :=
  match r.2 with
  | some e => decide ("Too many requests".data <:+: e)
  | none => false

/-- The per-row retry loop (`for attempt in range(retries)`): attempt `i`,
then on a rate-limit error sleep and move on, else break; returns the last
`(result, error)` pair and the number of cooldown pauses taken. -/
def retryLoop (g : Nat → InsertOutcome) : Nat → Nat → InsertOutcome × Nat
  | _, 0 => ((none, none), 0)
  | i, fuel + 1 =>
      let r := g i
      if isRateLimited r then
        if fuel == 0 then (r, 1)
        else
          let rec2 := retryLoop g (i + 1) fuel
          (rec2.1, rec2.2 + 1)
      else (r, 0)

/-- How the driver classifies one processed row. -/
inductive RowOutcome where
  | succeeded (r : DbRow)
  | skippedRow
  | erroredRow (msg : Option PyStr)
  deriving DecidableEq

/-- The `elif` chain after the retry loop, for a falsy `result`. -/
def classifyFail (e : Option PyStr) : RowOutcome :=
  if e == some "Duplicate (skipped)".data then RowOutcome.skippedRow
  else RowOutcome.erroredRow e

/-- `if result: ... elif error == "Duplicate (skipped)": ... else: ...`
(an empty dict `result` is falsy in Python). -/
def classifyRow (r : InsertOutcome) : RowOutcome :=
  match r with
  | (some row, e) => if row.isEmpty then classifyFail e else RowOutcome.succeeded row
  | (none, e) => classifyFail e

/-- `not row.get('Magazines') or row.get('Magazines', '').strip() == ''`. -/
def blankMagazines (row : RawRow) : Bool :=
  row.magazines.isEmpty || (pstrip row.magazines).isEmpty

/-- Attempt number `a` for one row: the endpoint's behaviour may vary
between attempts (that is what rate limiting is). -/
def attemptFn (row : RawRow) (net : Nat → Except PyStr QueryResponse) (a : Nat) :
    InsertOutcome :=
  insert_website row (fun _ _ => net a)

/-- Per-run counters and the retained error messages. -/
structure Summary where
  success_count : Nat
  skip_count : Nat
  error_count : Nat
  errors : List (Option PyStr)

/-- The body of the driver's loop for one row at or after the offset. -/
def stepRow (s : Summary) (row : RawRow) (net : Nat → Except PyStr QueryResponse) :
    Summary :=
  if blankMagazines row then { s with skip_count := s.skip_count + 1 }
  else
    match classifyRow (retryLoop (attemptFn row net) 0 3).1 with
    | RowOutcome.succeeded _ => { s with success_count := s.success_count + 1 }
    | RowOutcome.skippedRow => { s with skip_count := s.skip_count + 1 }
    | RowOutcome.erroredRow e =>
        { s with error_count := s.error_count + 1, errors := s.errors ++ [e] }

/-- `for i, row in enumerate(rows): if i < start_from: continue; ...`. -/
def runFrom (net : Nat → Nat → Except PyStr QueryResponse) (start : Nat) :
    List RawRow → Nat → Summary → Summary
  | [], _, s => s
  | row :: rest, i, s =>
      runFrom net start rest (i + 1) (if i < start then s else stepRow s row (net i))

/-- The whole run of `main` over the parsed rows, from the resume offset. -/
def mainRun (rows : List RawRow) (net : Nat → Nat → Except PyStr QueryResponse)
    (start : Nat) : Summary :=
  runFrom net start rows 0 ⟨0, 0, 0, []⟩

/-- Number of indices `j` with `i ≤ j < i + n` and `start ≤ j`. -/
def countFrom (start i : Nat) : Nat → Nat
  | 0 => 0
  | n + 1 => (if start ≤ i then 1 else 0) + countFrom start (i + 1) n

/-- All seventeen keys of the `data` dict, in insertion order. -/
def allColumns : List String :=
  ["website", "contact", "category", "da", "domain_rating", "organic_traffic",
   "client_price", "is_indexed", "do_follow", "news", "sponsored", "cbd",
   "casino", "dating", "crypto", "tat", "status"]

/-- The keys whose value can be absent. -/
def optionalColumns : List String :=
  ["contact", "category", "da", "domain_rating", "tat"]

/-- Sum of the three counters of a run summary. -/
def totalOf (s : Summary) : Nat := s.success_count + s.skip_count + s.error_count

/-- A concrete valid row used to exercise the retry loop. -/
def wRowC3 : RawRow :=
  ⟨"x.com".data, [], [], [], [], [], [], [], [], [], [], [], [], [], [], []⟩

/-- A concrete endpoint that rate-limits the first two attempts and then
accepts. -/
def wNetC3 : Nat → Except PyStr QueryResponse := fun a =>
  if a ≤ 1 then Except.ok ⟨false, 0, [], some "Too many requests".data⟩
  else Except.ok ⟨true, 1, [[("id", "1".data)]], none⟩

lemma mem_insertFields (d : List (String × Option PyVal)) (k : String) :
    k ∈ insertFields d ↔ ∃ v, (k, some v) ∈ d := by
  unfold insertFields
  simp only [List.mem_map, List.mem_filter, Option.isSome_iff_exists]
  constructor
  · rintro ⟨⟨k', b⟩, ⟨hmem, v, rfl⟩, rfl⟩
    exact ⟨v, hmem⟩
  · rintro ⟨v, hv⟩
    exact ⟨(k, some v), ⟨hv, v, rfl⟩, rfl⟩

lemma zip_insertFields_insertValues (d : List (String × Option PyVal)) :
    (insertFields d).zip (insertValues d)
      = d.filterMap (fun p => p.2.map (fun v => (p.1, v))) := by
  induction d with
  | nil => rfl
  | cons p rest ih =>
    obtain ⟨a, b⟩ := p
    cases b with
    | none =>
        simpa [insertFields, insertValues, List.filter_cons, List.filterMap_cons] using ih
    | some v =>
        simpa [insertFields, insertValues, List.filter_cons, List.filterMap_cons] using ih

lemma length_insertFields_eq (d : List (String × Option PyVal)) :
    (insertFields d).length = (insertValues d).length := by
  induction d with
  | nil => rfl
  | cons p rest ih =>
    obtain ⟨a, b⟩ := p
    cases b with
    | none => simpa [insertFields, insertValues, List.filter_cons, List.filterMap_cons] using ih
    | some v => simpa [insertFields, insertValues, List.filter_cons, List.filterMap_cons] using ih

lemma buildData_keys (row : RawRow) (w : PyStr) :
    (buildData row w).map Prod.fst = allColumns := rfl

/-- C1: the INSERT statement names exactly the present fields in insertion
order, the parameter list is aligned with the column list, placeholders are
positional from 1 to the number of columns, and the statement carries
`ON CONFLICT (website) DO NOTHING RETURNING id, website`. -/
theorem insert_sql_spec (row : RawRow) (w : PyStr) :
    (∀ k : String,
        k ∈ insertFields (buildData row w) ↔ ∃ v, (k, some v) ∈ buildData row w)
    ∧ (insertFields (buildData row w)).zip (insertValues (buildData row w))
        = (buildData row w).filterMap (fun p => p.2.map (fun v => (p.1, v)))
    ∧ (insertFields (buildData row w)).length = (insertValues (buildData row w)).length
    ∧ insertPlaceholders (insertFields (buildData row w)).length
        = (List.range (insertFields (buildData row w)).length).map
            (fun i => "$" ++ toString (i + 1))
    ∧ " ON CONFLICT (website) DO NOTHING RETURNING id, website".data
        <:+: (buildSQL (buildData row w)).data := by
  refine ⟨mem_insertFields _, zip_insertFields_insertValues _,
    length_insertFields_eq _, rfl, ?_⟩
  unfold buildSQL
  rw [String.data_append]
  exact List.IsInfix.trans (by decide) (List.suffix_append _ _).isInfix

/-- Witness for `insert_sql_spec` at a concrete row. -/
theorem insert_sql_spec_witness :
    "website" ∈ insertFields
      (buildData ⟨"x.com".data, [], [], [], [], [], [], [], [], [], [], [], [], [], [], []⟩
        "x.com".data) := by
  have h := insert_sql_spec
    ⟨"x.com".data, [], [], [], [], [], [], [], [], [], [], [], [], [], [], []⟩ "x.com".data
  exact (h.1 "website").mpr ⟨PyVal.vstr "x.com".data, by simp [buildData]⟩

/-- C10: website, organic_traffic, client_price, is_indexed, do_follow, news,
sponsored, cbd, casino, dating, crypto and status are always present in the
column list (their normalizers are total); only contact, category, da,
domain_rating and tat can be omitted. -/
theorem always_included_fields_spec (row : RawRow) (w : PyStr) :
    "website" ∈ insertFields (buildData row w)
    ∧ "organic_traffic" ∈ insertFields (buildData row w)
    ∧ "client_price" ∈ insertFields (buildData row w)
    ∧ "is_indexed" ∈ insertFields (buildData row w)
    ∧ "do_follow" ∈ insertFields (buildData row w)
    ∧ "news" ∈ insertFields (buildData row w)
    ∧ "sponsored" ∈ insertFields (buildData row w)
    ∧ "cbd" ∈ insertFields (buildData row w)
    ∧ "casino" ∈ insertFields (buildData row w)
    ∧ "dating" ∈ insertFields (buildData row w)
    ∧ "crypto" ∈ insertFields (buildData row w)
    ∧ "status" ∈ insertFields (buildData row w)
    ∧ (∀ k : String, k ∈ insertFields (buildData row w) → k ∈ allColumns)
    ∧ (∀ k : String, k ∈ allColumns → k ∉ insertFields (buildData row w) →
        k ∈ optionalColumns) := by
  have hmem : ∀ (k : String) (v : PyVal), (k, some v) ∈ buildData row w →
      k ∈ insertFields (buildData row w) :=
    fun k v h => (mem_insertFields _ k).mpr ⟨v, h⟩
  have h1 : "website" ∈ insertFields (buildData row w) :=
    hmem _ (PyVal.vstr w) (by simp [buildData])
  have h2 : "organic_traffic" ∈ insertFields (buildData row w) :=
    hmem _ (PyVal.vint (parse_traffic row.newOT)) (by simp [buildData])
  have h3 : "client_price" ∈ insertFields (buildData row w) :=
    hmem _ (PyVal.vfloat (parse_price row.price)) (by simp [buildData])
  have h4 : "is_indexed" ∈ insertFields (buildData row w) :=
    hmem _ (PyVal.vbool (parse_bool row.indexed)) (by simp [buildData])
  have h5 : "do_follow" ∈ insertFields (buildData row w) :=
    hmem _ (PyVal.vbool (parse_dofollow row.doFollowCol)) (by simp [buildData])
  have h6 : "news" ∈ insertFields (buildData row w) :=
    hmem _ (PyVal.vbool (parse_bool row.news)) (by simp [buildData])
  have h7 : "sponsored" ∈ insertFields (buildData row w) :=
    hmem _ (PyVal.vbool (parse_bool row.sponsored)) (by simp [buildData])
  have h8 : "cbd" ∈ insertFields (buildData row w) :=
    hmem _ (PyVal.vbool (parse_bool row.cbd)) (by simp [buildData])
  have h9 : "casino" ∈ insertFields (buildData row w) :=
    hmem _ (PyVal.vbool (parse_bool row.casino)) (by simp [buildData])
  have h10 : "dating" ∈ insertFields (buildData row w) :=
    hmem _ (PyVal.vbool (parse_bool row.dating)) (by simp [buildData])
  have h11 : "crypto" ∈ insertFields (buildData row w) :=
    hmem _ (PyVal.vbool (parse_bool row.crypto)) (by simp [buildData])
  have h12 : "status" ∈ insertFields (buildData row w) :=
    hmem _ (PyVal.vstr "active".data) (by simp [buildData])
  refine ⟨h1, h2, h3, h4, h5, h6, h7, h8, h9, h10, h11, h12, ?_, ?_⟩
  · intro k hk
    obtain ⟨v, hv⟩ := (mem_insertFields _ k).mp hk
    rw [← buildData_keys row w]
    exact List.mem_map.mpr ⟨(k, some v), hv, rfl⟩
  · intro k hk hnf
    simp only [allColumns, List.mem_cons, List.not_mem_nil, or_false] at hk
    rcases hk with rfl | rfl | rfl | rfl | rfl | rfl | rfl | rfl | rfl | rfl | rfl | rfl
      | rfl | rfl | rfl | rfl | rfl
    · exact absurd h1 hnf
    · simp [optionalColumns]
    · simp [optionalColumns]
    · simp [optionalColumns]
    · simp [optionalColumns]
    · exact absurd h2 hnf
    · exact absurd h3 hnf
    · exact absurd h4 hnf
    · exact absurd h5 hnf
    · exact absurd h6 hnf
    · exact absurd h7 hnf
    · exact absurd h8 hnf
    · exact absurd h9 hnf
    · exact absurd h10 hnf
    · exact absurd h11 hnf
    · simp [optionalColumns]
    · exact absurd h12 hnf

/-- Witness for `always_included_fields_spec` at a concrete row. -/
theorem always_included_fields_spec_witness :
    "tat" ∈ optionalColumns := by
  have h := always_included_fields_spec
    ⟨"x.com".data, [], [], [], [], [], [], [], [], [], [], [], [], [], [], []⟩ "x.com".data
  exact h.2.2.2.2.2.2.2.2.2.2.2.2.2 "tat" (by simp [allColumns]) (by decide)

/-- C2: classification of the endpoint's response never raises; success with
a positive row count returns the first returned row and no error, success
with a non-positive row count is the duplicate case, failure surfaces the
response's error message verbatim (or `Unknown error` when absent), and a
transport exception surfaces its text. -/
theorem response_classification_spec (r : QueryResponse) (e : PyStr) :
    (r.success = true → 0 < r.rowCount → ∀ (first : DbRow) (rest : List DbRow),
        r.rows = first :: rest →
        classifyResponse (Except.ok r) = (some first, none))
    ∧ (r.success = true → r.rowCount ≤ 0 →
        classifyResponse (Except.ok r) = (none, some "Duplicate (skipped)".data))
    ∧ (r.success = false → ∀ m, r.error = some m →
        classifyResponse (Except.ok r) = (none, some m))
    ∧ (r.success = false → r.error = none →
        classifyResponse (Except.ok r) = (none, some "Unknown error".data))
    ∧ classifyResponse (Except.error e) = (none, some e) := by
  refine ⟨?_, ?_, ?_, ?_, rfl⟩
  · intro hs hc first rest hr
    simp [classifyResponse, hs, hc, hr]
  · intro hs hc
    simp [classifyResponse, hs, not_lt.mpr hc]
  · intro hs m hm
    simp [classifyResponse, hs, hm]
  · intro hs hm
    simp [classifyResponse, hs, hm]

/-- Witness for `response_classification_spec` on concrete responses. -/
theorem response_classification_spec_witness :
    classifyResponse (Except.ok ⟨true, 1, [[("id", "1".data)]], none⟩)
        = (some [("id", "1".data)], none)
    ∧ classifyResponse (Except.ok ⟨true, 0, [], none⟩)
        = (none, some "Duplicate (skipped)".data)
    ∧ classifyResponse (Except.ok ⟨false, 0, [], some "boom".data⟩)
        = (none, some "boom".data)
    ∧ classifyResponse (Except.error "timed out".data) = (none, some "timed out".data) := by
  refine ⟨?_, ?_, ?_, ?_⟩
  · exact (response_classification_spec ⟨true, 1, [[("id", "1".data)]], none⟩
      "timed out".data).1 rfl (by decide) _ _ rfl
  · exact (response_classification_spec ⟨true, 0, [], none⟩
      "timed out".data).2.1 rfl (by decide)
  · exact (response_classification_spec ⟨false, 0, [], some "boom".data⟩
      "timed out".data).2.2.1 rfl _ rfl
  · exact (response_classification_spec ⟨false, 0, [], none⟩
      "timed out".data).2.2.2.2

/-- C5 counterexample: the protocol is stripped only when lowercase, so an
upper-case `HTTPS://` prefix is kept, unlike what the claim states. -/
theorem clean_website_case_cex :
    clean_website "HTTPS://www.Example.com/".data
        = some "HTTPS://www.Example.com".data
    ∧ clean_website "HTTPS://www.Example.com/".data ≠ some "Example.com".data := by
  decide

lemma stripProto_https (s : PyStr) : stripProto ("https://".data ++ s) = s := by
  unfold stripProto
  rw [if_pos ( List.isPrefixOf_iff_prefix.mpr (List.prefix_append _ _))]
  rfl

lemma stripProto_http (s : PyStr) : stripProto ("http://".data ++ s) = s := by
  have hneg : "https://".data.isPrefixOf ("http://".data ++ s) = false := rfl
  unfold stripProto
  rw [if_neg (by simp [hneg]),
    if_pos ( List.isPrefixOf_iff_prefix.mpr (List.prefix_append _ _))]
  rfl

/-- C5 amended: `clean_website` removes a leading `http://` or `https://`
only when the protocol is exactly lowercase (the substitution is
case-sensitive); the lowercase example normalizes to `Example.com`, while
the upper-case variant keeps its protocol. -/
theorem clean_website_protocol_spec :
    (∀ s : PyStr, clean_website ("http://".data ++ s)
        = some (rstripSlash (stripWww s)))
    ∧ (∀ s : PyStr, clean_website ("https://".data ++ s)
        = some (rstripSlash (stripWww s)))
    ∧ clean_website "https://www.Example.com/".data = some "Example.com".data
    ∧ clean_website "HTTPS://www.Example.com/".data
        = some "HTTPS://www.Example.com".data := by
  refine ⟨fun s => ?_, fun s => ?_, by decide, by decide⟩
  · have hie : ("http://".data ++ s).isEmpty = false := rfl
    unfold clean_website
    rw [if_neg (by simp [hie]), stripProto_http]
  · have hie : ("https://".data ++ s).isEmpty = false := rfl
    unfold clean_website
    rw [if_neg (by simp [hie]), stripProto_https]

lemma head?_dropWhile_false {p : Char → Bool} :
    ∀ (l : List Char) (c : Char), (l.dropWhile p).head? = some c → p c = false := by
  intro l
  induction l with
  | nil => intro c h; cases h
  | cons a t ih =>
      intro c h
      by_cases hp : p a
      · rw [List.dropWhile_cons_of_pos hp] at h
        exact ih c h
      · rw [List.dropWhile_cons_of_neg hp, List.head?_cons] at h
        injection h with h2
        subst h2
        simpa using hp

lemma rstripSlash_getLast? (u : PyStr) : (rstripSlash u).getLast? ≠ some '/' := by
  intro h
  unfold rstripSlash at h
  have h2 : (u.reverse.dropWhile (fun c => c == '/')).head? = some '/' := by
    have := List.head?_reverse (u.reverse.dropWhile (fun c => c == '/')).reverse
    rw [List.reverse_reverse] at this
    rw [← this] at h
    exact h
  have := head?_dropWhile_false (p := fun c => c == '/') u.reverse '/' h2
  simp at this

lemma rstripSlash_append_replicate (u : PyStr) :
    ∃ n, u = rstripSlash u ++ List.replicate n '/' := by
  refine ⟨(u.reverse.takeWhile (fun c => c == '/')).length, ?_⟩
  have hsplit := List.takeWhile_append_dropWhile (p := fun c => c == '/') (l := u.reverse)
  have htake : u.reverse.takeWhile (fun c => c == '/')
      = List.replicate (u.reverse.takeWhile (fun c => c == '/')).length '/' := by
    refine List.eq_replicate_of_mem ?_
    intro b hb
    have := List.mem_takeWhile_imp hb
    simpa using this
  calc u = u.reverse.reverse := (List.reverse_reverse u).symm
    _ = (u.reverse.takeWhile (fun c => c == '/')
          ++ u.reverse.dropWhile (fun c => c == '/')).reverse := by rw [hsplit]
    _ = (u.reverse.dropWhile (fun c => c == '/')).reverse
          ++ (u.reverse.takeWhile (fun c => c == '/')).reverse := by
            rw [List.reverse_append]
    _ = rstripSlash u ++ (u.reverse.takeWhile (fun c => c == '/')).reverse := by
            rw [rstripSlash]
    _ = rstripSlash u ++ List.replicate (u.reverse.takeWhile (fun c => c == '/')).length '/' := by
            conv_lhs => rw [htake]
            rw [List.reverse_replicate]

/-- C6 counterexample: `rstrip('/')` removes every trailing slash, so an
input ending in two slashes loses both, unlike what the claim states. -/
theorem clean_website_double_slash_cex :
    clean_website "example.com//".data = some "example.com".data
    ∧ clean_website "example.com//".data ≠ some "example.com/".data := by
  decide

/-- C6 amended: after protocol and `www.` stripping, `clean_website` removes
all trailing slashes: the result never ends in `/`, and the pre-stripping
string is the result followed by some number of slashes. -/
theorem clean_website_trailing_spec (u t : PyStr) (h : clean_website u = some t) :
    t.getLast? ≠ some '/'
    ∧ ∃ n, stripWww (stripProto u) = t ++ List.replicate n '/' := by
  unfold clean_website at h
  by_cases hu : u.isEmpty
  · rw [if_pos hu] at h; cases h
  · rw [if_neg hu] at h
    have ht : t = rstripSlash (stripWww (stripProto u)) := by
      injection h with h'; exact h'.symm
    subst ht
    exact ⟨rstripSlash_getLast? _, rstripSlash_append_replicate _⟩

/-- Witness for `clean_website_trailing_spec` on a concrete input. -/
theorem clean_website_trailing_spec_witness :
    "example.com".data.getLast? ≠ some '/'
    ∧ ∃ n, stripWww (stripProto "example.com//".data)
        = "example.com".data ++ List.replicate n '/' := by
  exact clean_website_trailing_spec "example.com//".data "example.com".data (by decide)

/-- C8 counterexample: Python `int` accepts a leading sign, so `parse_int`
can return a negative value, unlike what the claim states. -/
theorem parse_int_negative_cex :
    parse_int "-5".data = some (-5) ∧ ¬ (0 ≤ (-5 : Int)) := by
  decide

lemma pyIntCore_sign (t : PyStr) (n : Int) (h : pyIntCore t = some n) :
    0 ≤ n ∨ t.head? = some '-' := by
  cases t with
  | nil => cases h
  | cons c r =>
      by_cases hminus : c = '-'
      · subst hminus
        right
        rfl
      · left
        have hm : (c == '-') = false := beq_eq_false_iff_ne.mpr hminus
        by_cases hplus : c = '+'
        · subst hplus
          simp only [pyIntCore] at h
          by_cases hd : isDigits r
          · simp only [hd, if_pos, if_true] at h
            injection h with h2
            rw [← h2]
            exact Int.natCast_nonneg _
          · simp [hd] at h
        · have hp : (c == '+') = false := beq_eq_false_iff_ne.mpr hplus
          simp only [pyIntCore, hm, hp, Bool.false_eq_true, if_false] at h
          by_cases hd : isDigits (c :: r)
          · simp only [hd, if_true] at h
            injection h with h2
            rw [← h2]
            exact Int.natCast_nonneg _
          · simp [hd] at h

/-- C8 amended: `parse_int` (used for da, domain_rating and tat) yields
either absence or an integer parsed from an optional sign followed by
digits; a negative value arises only when the trimmed text carries an
explicit leading minus sign. -/
theorem parse_int_sign_spec (s : PyStr) (n : Int) (h : parse_int s = some n) :
    0 ≤ n ∨ (pstrip s).head? = some '-' := by
  unfold parse_int at h
  by_cases hb : s.isEmpty || (pstrip s).isEmpty
  · rw [if_pos hb] at h; cases h
  · rw [if_neg hb] at h
    exact pyIntCore_sign _ _ h

/-- Witness for `parse_int_sign_spec` on a concrete input. -/
theorem parse_int_sign_spec_witness :
    0 ≤ (-5 : Int) ∨ (pstrip "-5".data).head? = some '-' := by
  exact parse_int_sign_spec "-5".data (-5) (by decide)

lemma classifyResponse_shape (tr : Except PyStr QueryResponse) :
    (∃ r, classifyResponse tr = (some r, none))
    ∨ (∃ e, classifyResponse tr = (none, some e)) := by
  unfold classifyResponse
  match tr with
  | Except.error e => exact Or.inr ⟨e, rfl⟩
  | Except.ok r =>
      by_cases hs : r.success = true
      · by_cases hc : 0 < r.rowCount
        · cases hr : r.rows with
          | nil => exact Or.inr ⟨"list index out of range".data, by simp [hs, hc, hr]⟩
          | cons a t => exact Or.inl ⟨a, by simp [hs, hc, hr]⟩
        · exact Or.inr ⟨"Duplicate (skipped)".data, by simp [hs, hc]⟩
      · exact Or.inr ⟨r.error.getD "Unknown error".data, by simp [hs]⟩

lemma insert_website_shape (row : RawRow)
    (ep : String → List PyVal → Except PyStr QueryResponse) :
    (∃ r, insert_website row ep = (some r, none))
    ∨ (∃ e, insert_website row ep = (none, some e)) := by
  unfold insert_website
  cases hcw : clean_website row.magazines with
  | none => exact Or.inr ⟨_, rfl⟩
  | some w =>
      by_cases hw : w.isEmpty = true
      · exact Or.inr ⟨"No website URL".data, by simp [hw]⟩
      · simpa [hw] using classifyResponse_shape (ep _ _)

lemma isRateLimited_sub (r : InsertOutcome) (h : isRateLimited r = true) :
    ∃ e, r.2 = some e ∧ e ≠ "Duplicate (skipped)".data := by
  obtain ⟨a, b⟩ := r
  cases b with
  | none => cases h
  | some e =>
      refine ⟨e, rfl, ?_⟩
      intro he
      subst he
      have hinf : "Too many requests".data <:+: "Duplicate (skipped)".data :=
        of_decide_eq_true h
      exact absurd hinf (by decide)

lemma classifyRow_errored (e : PyStr) (h : e ≠ "Duplicate (skipped)".data) :
    classifyRow (none, some e) = RowOutcome.erroredRow (some e) := by
  have hb : (some e == some "Duplicate (skipped)".data) = false := by
    simpa using h
  simp [classifyRow, classifyFail, hb]

lemma retryLoop_case1 (g : Nat → InsertOutcome) (h0 : isRateLimited (g 0) = false) :
    retryLoop g 0 3 = (g 0, 0) := by
  simp [retryLoop, h0]

lemma retryLoop_case2 (g : Nat → InsertOutcome) (h0 : isRateLimited (g 0) = true)
    (h1 : isRateLimited (g 1) = false) : retryLoop g 0 3 = (g 1, 1) := by
  simp [retryLoop, h0, h1]

lemma retryLoop_case3 (g : Nat → InsertOutcome) (h0 : isRateLimited (g 0) = true)
    (h1 : isRateLimited (g 1) = true) (h2 : isRateLimited (g 2) = false) :
    retryLoop g 0 3 = (g 2, 2) := by
  simp [retryLoop, h0, h1, h2]

lemma retryLoop_case4 (g : Nat → InsertOutcome) (h0 : isRateLimited (g 0) = true)
    (h1 : isRateLimited (g 1) = true) (h2 : isRateLimited (g 2) = true) :
    retryLoop g 0 3 = (g 2, 3) := by
  simp [retryLoop, h0, h1, h2]

lemma retryLoop_fst_third (g : Nat → InsertOutcome) (h0 : isRateLimited (g 0) = true)
    (h1 : isRateLimited (g 1) = true) : (retryLoop g 0 3).1 = g 2 := by
  by_cases h2 : isRateLimited (g 2) = true
  · rw [retryLoop_case4 g h0 h1 h2]
  · rw [retryLoop_case3 g h0 h1 (by simpa using h2)]

/-- C3: the driver retries a rate-limited attempt after a cooldown, up to 3
attempts per row; a success on the third attempt counts the row as exactly
one success after two cooldown pauses; a row still rate-limited after all 3
attempts keeps the last observed message and is classified as an error. -/
theorem rate_limit_retry_spec (row : RawRow) (net : Nat → Except PyStr QueryResponse)
    (s : Summary) :
    (isRateLimited (attemptFn row net 0) = false →
        retryLoop (attemptFn row net) 0 3 = (attemptFn row net 0, 0))
    ∧ (isRateLimited (attemptFn row net 0) = true →
        isRateLimited (attemptFn row net 1) = false →
        retryLoop (attemptFn row net) 0 3 = (attemptFn row net 1, 1))
    ∧ (isRateLimited (attemptFn row net 0) = true →
        isRateLimited (attemptFn row net 1) = true →
        isRateLimited (attemptFn row net 2) = false →
        retryLoop (attemptFn row net) 0 3 = (attemptFn row net 2, 2))
    ∧ (isRateLimited (attemptFn row net 0) = true →
        isRateLimited (attemptFn row net 1) = true →
        isRateLimited (attemptFn row net 2) = true →
        retryLoop (attemptFn row net) 0 3 = (attemptFn row net 2, 3)
        ∧ classifyRow (attemptFn row net 2)
            = RowOutcome.erroredRow (attemptFn row net 2).2)
    ∧ (blankMagazines row = false →
        isRateLimited (attemptFn row net 0) = true →
        isRateLimited (attemptFn row net 1) = true →
        ∀ dbr : DbRow, attemptFn row net 2 = (some dbr, none) → dbr.isEmpty = false →
        stepRow s row net = { s with success_count := s.success_count + 1 }) := by
  refine ⟨retryLoop_case1 _, retryLoop_case2 _, retryLoop_case3 _, ?_, ?_⟩
  · intro h0 h1 h2
    refine ⟨retryLoop_case4 _ h0 h1 h2, ?_⟩
    obtain ⟨e, he, hne⟩ := isRateLimited_sub _ h2
    have hshape := insert_website_shape row (fun _ _ => net 2)
    have hg : attemptFn row net 2 = insert_website row (fun _ _ => net 2) := rfl
    rw [← hg] at hshape
    rcases hshape with ⟨r, hr⟩ | ⟨e2, he2⟩
    · rw [hr] at he
      cases he
    · rw [he2] at he ⊢
      injection he with he3
      rw [← he3] at hne
      exact classifyRow_errored e2 hne
  · intro hb h0 h1 dbr hdbr hemp
    have hfin : (retryLoop (attemptFn row net) 0 3).1 = attemptFn row net 2 :=
      retryLoop_fst_third _ h0 h1
    unfold stepRow
    rw [if_neg (by simp [hb]), hfin, hdbr]
    simp [classifyRow, hemp]

/-- Witness for `rate_limit_retry_spec`: two rate-limited attempts, then a
success, give two pauses and exactly one counted success. -/
theorem rate_limit_retry_spec_witness :
    retryLoop (attemptFn wRowC3 wNetC3) 0 3 = (attemptFn wRowC3 wNetC3 2, 2)
    ∧ stepRow ⟨0, 0, 0, []⟩ wRowC3 wNetC3 = ⟨1, 0, 0, []⟩ := by
  constructor
  · exact (rate_limit_retry_spec wRowC3 wNetC3 ⟨0, 0, 0, []⟩).2.2.1
      (by decide) (by decide) (by decide)
  · exact (rate_limit_retry_spec wRowC3 wNetC3 ⟨0, 0, 0, []⟩).2.2.2.2
      (by decide) (by decide) (by decide) [("id", "1".data)] (by decide) (by decide)

/-- C4 counterexample: a row whose website column is non-blank but
normalizes to no usable website (here `https://`) is counted as an error,
not as skipped. -/
theorem unusable_website_errors_cex :
    (mainRun [⟨"https://".data, [], [], [], [], [], [], [], [], [], [], [], [], [], [], []⟩]
        (fun _ _ => Except.error "x".data) 0).skip_count = 0
    ∧ (mainRun [⟨"https://".data, [], [], [], [], [], [], [], [], [], [], [], [], [], [], []⟩]
        (fun _ _ => Except.error "x".data) 0).error_count = 1 := by
  decide

/-- C4 amended: a row whose website column is blank is counted as skipped;
a row whose non-blank website value normalizes to no usable website is
counted as an error with the message `No website URL`. -/
theorem blank_skip_unusable_error_spec (s : Summary) (row : RawRow)
    (net : Nat → Except PyStr QueryResponse) :
    (blankMagazines row = true →
        stepRow s row net = { s with skip_count := s.skip_count + 1 })
    ∧ (blankMagazines row = false → clean_website row.magazines = some [] →
        stepRow s row net
          = { s with error_count := s.error_count + 1, errors := s.errors ++ [some "No website URL".data] }) := by
  constructor
  · intro hb
    unfold stepRow
    rw [if_pos hb]
  · intro hb hcw
    have hatt : attemptFn row net 0 = (none, some "No website URL".data) := by
      unfold attemptFn insert_website
      rw [hcw]
      rfl
    have hloop : retryLoop (attemptFn row net) 0 3
        = ((none, some "No website URL".data), 0) := by
      have hrl : isRateLimited (none, some "No website URL".data) = false := by decide
      have := retryLoop_case1 (attemptFn row net) (by rw [hatt]; exact hrl)
      rw [this, hatt]
    unfold stepRow
    rw [if_neg (by simp [hb]), hloop]
    rfl

/-- Witness for `blank_skip_unusable_error_spec` on concrete rows. -/
theorem blank_skip_unusable_error_spec_witness :
    stepRow ⟨0, 0, 0, []⟩ ⟨[], [], [], [], [], [], [], [], [], [], [], [], [], [], [], []⟩
        (fun _ => Except.error "x".data) = ⟨0, 1, 0, []⟩
    ∧ stepRow ⟨0, 0, 0, []⟩
        ⟨"https://".data, [], [], [], [], [], [], [], [], [], [], [], [], [], [], []⟩
        (fun _ => Except.error "x".data)
      = ⟨0, 0, 1, [some "No website URL".data]⟩ := by
  constructor
  · exact (blank_skip_unusable_error_spec ⟨0, 0, 0, []⟩
      ⟨[], [], [], [], [], [], [], [], [], [], [], [], [], [], [], []⟩
      (fun _ => Except.error "x".data)).1 (by decide)
  · exact (blank_skip_unusable_error_spec ⟨0, 0, 0, []⟩
      ⟨"https://".data, [], [], [], [], [], [], [], [], [], [], [], [], [], [], []⟩
      (fun _ => Except.error "x".data)).2 (by decide) (by decide)

/-- C7: traffic parsing upper-cases and strips commas, decodes a `K` suffix
as x1000 and an `M` suffix as x1000000 with truncation toward zero, parses
plain numbers with truncation, and yields 0 on blank or unparsable input;
in particular 74K gives 74000, 158.1K gives 158100, 2M gives 2000000. -/
theorem parse_traffic_spec :
    parse_traffic "74K".data = 74000
    ∧ parse_traffic "158.1K".data = 158100
    ∧ parse_traffic "2M".data = 2000000
    ∧ parse_traffic [] = 0
    ∧ parse_traffic "garbage".data = 0
    ∧ (∀ s : PyStr, pstrip s = [] → parse_traffic s = 0)
    ∧ (∀ (s : PyStr) (d : DecFloat), pstrip s ≠ [] →
        (pstrip ((s.map Char.toUpper).filter (fun c => !(c == ',')))).contains 'K' = true →
        parseFloat ((pstrip ((s.map Char.toUpper).filter (fun c => !(c == ',')))).filter
            (fun c => !(c == 'K'))) = some d →
        parse_traffic s = truncD (scaleD d 1000))
    ∧ (∀ (s : PyStr) (d : DecFloat), pstrip s ≠ [] →
        (pstrip ((s.map Char.toUpper).filter (fun c => !(c == ',')))).contains 'K' = false →
        (pstrip ((s.map Char.toUpper).filter (fun c => !(c == ',')))).contains 'M' = true →
        parseFloat ((pstrip ((s.map Char.toUpper).filter (fun c => !(c == ',')))).filter
            (fun c => !(c == 'M'))) = some d →
        parse_traffic s = truncD (scaleD d 1000000))
    ∧ (∀ (s : PyStr) (d : DecFloat), pstrip s ≠ [] →
        (pstrip ((s.map Char.toUpper).filter (fun c => !(c == ',')))).contains 'K' = false →
        (pstrip ((s.map Char.toUpper).filter (fun c => !(c == ',')))).contains 'M' = false →
        parseFloat (pstrip ((s.map Char.toUpper).filter (fun c => !(c == ',')))) = some d →
        parse_traffic s = truncD d)
    ∧ (∀ s : PyStr, pstrip s ≠ [] →
        (pstrip ((s.map Char.toUpper).filter (fun c => !(c == ',')))).contains 'K' = false →
        (pstrip ((s.map Char.toUpper).filter (fun c => !(c == ',')))).contains 'M' = false →
        parseFloat (pstrip ((s.map Char.toUpper).filter (fun c => !(c == ',')))) = none →
        parse_traffic s = 0) := by
  refine ⟨by decide, by decide, by decide, by decide, by decide, ?_, ?_, ?_, ?_, ?_⟩
  · intro s h1
    unfold parse_traffic
    rw [if_pos]
    simp [List.isEmpty_iff, h1]
  · intro s d h1 h2 h3
    have hne : s ≠ [] := by
      intro he
      exact h1 (by simp [he, pstrip])
    unfold parse_traffic
    rw [if_neg (by simp [List.isEmpty_iff, h1, hne])]
    simp only [h2, if_true, h3]
  · intro s d h1 h2 h2m h3
    have hne : s ≠ [] := by
      intro he
      exact h1 (by simp [he, pstrip])
    unfold parse_traffic
    rw [if_neg (by simp [List.isEmpty_iff, h1, hne])]
    simp only [h2, Bool.false_eq_true, if_false, h2m, if_true, h3]
  · intro s d h1 h2 h2m h3
    have hne : s ≠ [] := by
      intro he
      exact h1 (by simp [he, pstrip])
    unfold parse_traffic
    rw [if_neg (by simp [List.isEmpty_iff, h1, hne])]
    simp only [h2, h2m, Bool.false_eq_true, if_false, h3]
  · intro s h1 h2 h2m h3
    have hne : s ≠ [] := by
      intro he
      exact h1 (by simp [he, pstrip])
    unfold parse_traffic
    rw [if_neg (by simp [List.isEmpty_iff, h1, hne])]
    simp only [h2, h2m, Bool.false_eq_true, if_false, h3]

/-- Witness for `parse_traffic_spec` on concrete inputs. -/
theorem parse_traffic_spec_witness :
    parse_traffic "74K".data = truncD (scaleD ⟨74, 0⟩ 1000)
    ∧ parse_traffic [' '] = 0 := by
  constructor
  · exact parse_traffic_spec.2.2.2.2.2.2.1 "74K".data ⟨74, 0⟩
      (by decide) (by decide) (by decide)
  · exact parse_traffic_spec.2.2.2.2.2.1 [' '] (by decide)

lemma totalOf_stepRow (s : Summary) (row : RawRow)
    (net : Nat → Except PyStr QueryResponse) :
    totalOf (stepRow s row net) = totalOf s + 1 := by
  unfold stepRow
  by_cases hb : blankMagazines row = true
  · rw [if_pos hb]
    simp [totalOf]
    omega
  · rw [if_neg hb]
    cases hc : classifyRow (retryLoop (attemptFn row net) 0 3).1 <;> simp [totalOf] <;> omega

lemma runFrom_totalOf (net : Nat → Nat → Except PyStr QueryResponse) (start : Nat) :
    ∀ (rows : List RawRow) (i : Nat) (s : Summary),
      totalOf (runFrom net start rows i s) = totalOf s + countFrom start i rows.length := by
  intro rows
  induction rows with
  | nil => intro i s; simp [runFrom, countFrom]
  | cons row rest ih =>
      intro i s
      rw [runFrom, ih]
      by_cases hi : i < start
      · rw [if_pos hi]
        have hns : ¬ start ≤ i := by omega
        simp [countFrom, hns]
      · rw [if_neg hi, totalOf_stepRow]
        have hs : start ≤ i := by omega
        simp [countFrom, hs]
        omega

lemma countFrom_eq (start : Nat) :
    ∀ (n i : Nat), countFrom start i n = n - (start - i) := by
  intro n
  induction n with
  | zero => intro i; simp [countFrom]
  | succ m ih =>
      intro i
      rw [countFrom, ih (i + 1)]
      by_cases h : start ≤ i
      · rw [if_pos h]
        omega
      · rw [if_neg h]
        omega

/-- C9: each processed row increments exactly one of the three counters
(skip, success, or error together with one retained message), and a whole
run's success, skip and error counts sum to the number of rows at or after
the resume offset. -/
theorem counter_partition_spec :
    (∀ (s : Summary) (row : RawRow) (net : Nat → Except PyStr QueryResponse),
        stepRow s row net = { s with skip_count := s.skip_count + 1 }
        ∨ stepRow s row net = { s with success_count := s.success_count + 1 }
        ∨ ∃ e, stepRow s row net
            = { s with error_count := s.error_count + 1, errors := s.errors ++ [e] })
    ∧ (∀ (rows : List RawRow) (net : Nat → Nat → Except PyStr QueryResponse) (start : Nat),
        (mainRun rows net start).success_count + (mainRun rows net start).skip_count
          + (mainRun rows net start).error_count = rows.length - start) := by
  constructor
  · intro s row net
    unfold stepRow
    by_cases hb : blankMagazines row = true
    · rw [if_pos hb]
      exact Or.inl rfl
    · rw [if_neg hb]
      cases hc : classifyRow (retryLoop (attemptFn row net) 0 3).1 with
      | succeeded r => exact Or.inr (Or.inl rfl)
      | skippedRow => exact Or.inl rfl
      | erroredRow e => exact Or.inr (Or.inr ⟨e, rfl⟩)
  · intro rows net start
    show totalOf (runFrom net start rows 0 ⟨0, 0, 0, []⟩) = rows.length - start
    rw [runFrom_totalOf net start rows 0 ⟨0, 0, 0, []⟩, countFrom_eq start rows.length 0]
    simp [totalOf]

end ImportInventory
